import Mathlib

/-!
Verification of the Email-MCP frontend's classification, extraction,
query and mutation logic, shallowly embedded from the JavaScript source
(the `useEmails` hook, the `EmailManagement` component, `EmailCard`,
`ResponseEditor`, `services/api.js` and the `Sidebar` of `App.js`).

Times are modelled as integer milliseconds since the Unix epoch with the
local timezone fixed at offset zero (no DST); `JSDate` mirrors the civil
accessor view (`getFullYear`/`getMonth`/`getDate`/`getHours`/...) of a
JavaScript `Date`. Strings are Lean strings; JS code-unit comparisons and
`toLowerCase` agree with the embedding on the ASCII texts this code
manipulates.
-/

namespace EmailMCP

/-- JS `String.prototype.toLowerCase`, as the per-character lowercase map
(the lexicon keywords and comparisons in this code are ASCII). -/
def jsToLower (s : String) : String := ⟨s.data.map Char.toLower⟩

/-- `needle` is an initial segment of `hay`. -/
def listStartsWith : List Char → List Char → Bool
  | [], _ => true
  | _ :: _, [] => false
  | a :: as, b :: bs => a = b && listStartsWith as bs

/-- `needle` occurs contiguously somewhere in `hay`. -/
def listContainsSub (needle : List Char) : List Char → Bool
  | [] => needle.isEmpty
  | c :: rest => listStartsWith needle (c :: rest) || listContainsSub needle rest

/-- JS `s.includes(sub)`. -/
def jsIncludes (s sub : String) : Bool := listContainsSub sub.toList s.toList

/-- `s` contains at least one of the words `ws` as a substring. -/
def containsAnyOf (s : String) (ws : List String) : Bool :=
  ws.any (fun w => jsIncludes s w)

/-- The negative lexicon of `getSentiment` (EmailManagement, backend README
lines 432-433), in source order. -/
def negativeWords : List String := ["error", "issue", "problem", "cannot", "failed"]

/-- The positive lexicon of `getSentiment` (EmailManagement, backend README
lines 435-436), in source order. -/
def positiveWords : List String := ["thank", "appreciate", "great", "good"]

/-- `getSentiment(body)` from the EmailManagement component (backend README
lines 429-441): `if (!body) return 'neutral'` (absent or empty body), then
the negative lexicon is checked first on the lowercased body, then the
positive one, else `'neutral'`. -/
def getSentiment : Option String → String
  | none => "neutral"
  | some body =>
    if body = "" then "neutral"
    else
      let lowerBody := jsToLower body
      if jsIncludes lowerBody "error" || jsIncludes lowerBody "issue" ||
          jsIncludes lowerBody "problem" || jsIncludes lowerBody "cannot" ||
          jsIncludes lowerBody "failed" then "negative"
      else if jsIncludes lowerBody "thank" || jsIncludes lowerBody "appreciate" ||
          jsIncludes lowerBody "great" || jsIncludes lowerBody "good" then "positive"
      else "neutral"

/-- `getPriority(subject)` from the EmailManagement component (backend README
lines 417-427): `if (!subject) return 'medium'`, then the urgent lexicon on
the lowercased subject gives `'high'`, the help lexicon `'medium'`, else
`'low'`. -/
def getPriority : Option String → String
  | none => "medium"
  | some subject =>
    if subject = "" then "medium"
    else
      let lowerSubject := jsToLower subject
      if jsIncludes lowerSubject "urgent" || jsIncludes lowerSubject "critical" ||
          jsIncludes lowerSubject "immediate" then "high"
      else if jsIncludes lowerSubject "help" || jsIncludes lowerSubject "support" then "medium"
      else "low"

/-! ## Calendar arithmetic

JavaScript `Date` values are integer milliseconds since the Unix epoch;
constructing `new Date(year, monthIndex, day)` normalizes out-of-range
month indices into the year and out-of-range days into the month. The
proleptic-Gregorian day count below realizes exactly that normalization
(the count is linear in the day argument, and the month index is folded
into the year by euclidean division). -/

/-- Days from 1970-01-01 to the proleptic Gregorian date `year-month-day`
(`month` is 1-based); standard civil-from-days arithmetic, total on all
integers and linear in `day`, which makes it the normalizing day count
behind JS `Date` construction and `setDate`. -/
def daysFromCivil (year month day : Int) : Int :=
  let y := year - (if month ≤ 2 then 1 else 0)
  let era := y / 400
  let yoe := y - era * 400
  let doy := (153 * (month + (if month > 2 then -3 else 9)) + 2) / 5 + day - 1
  let doe := yoe * 365 + yoe / 4 - yoe / 100 + doy
  era * 146097 + doe - 719468

/-- Epoch days of JS `new Date(year, monthIndex, day)` (0-based
`monthIndex`, normalized by the calendar); also the meaning of
`setDate(day)` on a date of that month. -/
def jsDateDays (year monthIndex day : Int) : Int :=
  daysFromCivil (year + monthIndex / 12) (monthIndex % 12 + 1) 1 + (day - 1)

/-- The civil accessor view of a JS `Date`: `getFullYear`, `getMonth`
(0-based), `getDate` (1-based), `getHours`, `getMinutes`, `getSeconds`;
local timezone fixed at UTC, milliseconds-within-second omitted. -/
structure JSDate where
  year : Int
  month : Int
  day : Int
  hour : Int
  minute : Int
  sec : Int
deriving DecidableEq, Repr

/-- The instant of a `JSDate`, in epoch milliseconds (`getTime`). -/
def JSDate.toMillis (d : JSDate) : Int :=
  jsDateDays d.year d.month d.day * 86400000 + (d.hour * 3600 + d.minute * 60 + d.sec) * 1000

/-- The accessor fields describe a real `Date`: month index, day of month
and time of day in their JS ranges. -/
def JSDate.Valid (d : JSDate) : Prop :=
  0 ≤ d.month ∧ d.month ≤ 11 ∧ 1 ≤ d.day ∧ d.day ≤ 31 ∧
  0 ≤ d.hour ∧ d.hour ≤ 23 ∧ 0 ≤ d.minute ∧ d.minute ≤ 59 ∧ 0 ≤ d.sec ∧ d.sec ≤ 59

instance (d : JSDate) : Decidable d.Valid := by unfold JSDate.Valid; infer_instance

/-- The date facet of `filterAndSortEmails` (EmailManagement, backend README
lines 489-532), for one email: `emailDate` is `new Date(email.sent_date)` in
epoch milliseconds, `now` is `new Date()`. The thresholds are computed as in
the source: `today` is `now` with `setHours(0,0,0,0)`; `yesterday`,
`last7Days` and `last30Days` are copies of `today` moved with
`setDate(getDate() - k)`; `thisMonthStart` is
`new Date(getFullYear(), getMonth(), 1)`; `lastMonthStart` is
`new Date(getFullYear(), getMonth() - 1, 1)`; `lastMonthEnd` is
`new Date(getFullYear(), getMonth(), 0)`. The surrounding
`if (selectedFilters.date !== 'all')` and the switch `default` make `'all'`
and unknown values match everything. -/
def matchesDate (dateFilter : String) (emailDate : Int) (now : JSDate) : Bool :=
  if dateFilter = "all" then true
  else
    let today := jsDateDays now.year now.month now.day * 86400000
    let yesterday := jsDateDays now.year now.month (now.day - 1) * 86400000
    let last7Days := jsDateDays now.year now.month (now.day - 7) * 86400000
    let last30Days := jsDateDays now.year now.month (now.day - 30) * 86400000
    let thisMonthStart := jsDateDays now.year now.month 1 * 86400000
    let lastMonthStart := jsDateDays now.year (now.month - 1) 1 * 86400000
    let lastMonthEnd := jsDateDays now.year now.month 0 * 86400000
    match dateFilter with
    | "today" => decide (today ≤ emailDate)
    | "yesterday" => decide (yesterday ≤ emailDate ∧ emailDate < today)
    | "last7days" => decide (last7Days ≤ emailDate)
    | "last30days" => decide (last30Days ≤ emailDate)
    | "thisMonth" => decide (thisMonthStart ≤ emailDate)
    | "lastMonth" => decide (lastMonthStart ≤ emailDate ∧ emailDate ≤ lastMonthEnd)
    | _ => true

/-! Specification-side readings of the bucket boundaries, stated
independently of the JS `Date` mutation sequences. -/

/-- Start of the current local day, read off the instant itself. -/
def specStartOfDay (now : JSDate) : Int :=
  now.toMillis - now.toMillis % 86400000

/-- Midnight on the first day of the current month. -/
def specFirstOfMonth (now : JSDate) : Int :=
  daysFromCivil now.year (now.month + 1) 1 * 86400000

/-- Midnight on the first day of the previous month. -/
def specFirstOfPrevMonth (now : JSDate) : Int :=
  if now.month = 0 then daysFromCivil (now.year - 1) 12 1 * 86400000
  else daysFromCivil now.year now.month 1 * 86400000

/-- Midnight on the last day of the previous month. -/
def specLastDayOfPrevMonth (now : JSDate) : Int :=
  specFirstOfMonth now - 86400000

example : daysFromCivil 1970 1 1 = 0 := by decide
example : daysFromCivil 2024 3 15 = 19797 := by decide
example : jsDateDays 2024 2 15 = 19797 := by decide
example : jsDateDays 2024 (-1) 1 = daysFromCivil 2023 12 1 := by decide
example : jsDateDays 2024 2 0 = daysFromCivil 2024 2 29 := by decide

/-! ## Records and sorting -/

/-- One email record as the frontend holds it: `received_at`/`sent_date` is
`date`, in epoch milliseconds; `priority`, `sentiment`, `status` and
`category` are the literal JS strings. -/
structure Email where
  id : Nat
  sender : String
  subject : String
  body : String
  date : Int
  priority : String
  sentiment : String
  status : String
  category : String
deriving DecidableEq, Repr

/-- The scalar fields `a[sortBy]` can name in the two sort comparators. -/
inductive SortKey
  | sender
  | subject
  | body
  | date
  | priority
  | sentiment
  | status
  | category
deriving DecidableEq, Repr

inductive SortOrder
  | asc
  | desc
deriving DecidableEq, Repr

/-- A value read out of a record for comparison: a string, or a date taken
as its epoch-milliseconds number (`new Date(value)`). -/
inductive SortVal
  | str (s : String)
  | num (n : Int)
deriving DecidableEq, Repr

/-- JS `<` on strings: lexicographic by code unit (code point on the BMP
texts at hand). -/
def jsCharListLt : List Char → List Char → Bool
  | [], [] => false
  | [], _ :: _ => true
  | _ :: _, [] => false
  | a :: as, b :: bs => if a < b then true else if b < a then false else jsCharListLt as bs

def jsStringLt (a b : String) : Bool := jsCharListLt a.data b.data

/-- JS `<` on two sort values of the same field (strings compare
lexicographically, dates by instant). -/
def SortVal.ltb : SortVal → SortVal → Bool
  | .str a, .str b => jsStringLt a b
  | .num a, .num b => decide (a < b)
  | _, _ => false

/-- `a[sortBy]`, with the `sortBy === 'received_at'`/`'sent_date'` branch
already wrapping the date in `new Date(...)`. -/
def Email.field (e : Email) : SortKey → SortVal
  | .sender => .str e.sender
  | .subject => .str e.subject
  | .body => .str e.body
  | .date => .num e.date
  | .priority => .str e.priority
  | .sentiment => .str e.sentiment
  | .status => .str e.status
  | .category => .str e.category

/-- Lowercase a string value, leave a date alone: the
`typeof valueA === 'string'` normalization in `filterAndSortEmails`. -/
def SortVal.lowered : SortVal → SortVal
  | .str s => .str (jsToLower s)
  | v => v

/-- The sort comparator of `applyFiltersAndSorting` (useEmails, lines
175-189): `sortOrder === 'asc' ? (aValue > bValue ? 1 : -1) : (aValue <
bValue ? 1 : -1)` — note it never returns 0, and strings are compared
without lowercasing. JS `aValue > bValue` is `bValue < aValue`. -/
def applySortCompare (sortOrder : SortOrder) (sortBy : SortKey) (a b : Email) : Int :=
  let aValue := a.field sortBy
  let bValue := b.field sortBy
  match sortOrder with
  | .asc => if SortVal.ltb bValue aValue then 1 else -1
  | .desc => if SortVal.ltb aValue bValue then 1 else -1

/-- The sort comparator of `filterAndSortEmails` (EmailManagement, backend
README lines 538-560): lowercases string values, then a three-way compare
returning 0 on ties. -/
def filterSortCompare (sortOrder : SortOrder) (sortBy : SortKey) (a b : Email) : Int :=
  let valueA := (a.field sortBy).lowered
  let valueB := (b.field sortBy).lowered
  if SortVal.ltb valueA valueB then (if sortOrder = .asc then -1 else 1)
  else if SortVal.ltb valueB valueA then (if sortOrder = .asc then 1 else -1)
  else 0

/-! `Array.prototype.sort` leaves the element order implementation-defined
when the comparator is not a consistent comparison function (ECMA-262
§23.1.3.30). The model below is the behaviour of V8 (Chrome/Node), whose
TimSort handles arrays shorter than 64 elements as a single forced run:
`CountAndMakeRun` detects a maximal strictly-descending or ascending
prefix (reversing a descending one), then `BinaryInsertionSort` inserts
the remaining elements. -/

/-- The loop of V8's binary search, iteration-counted: each step shrinks
`right - left`, so `fuel = right - left` always suffices and the `fuel = 0`
fallthrough is unreachable from `v8InsertPos`. Move left exactly when
`comp(pivot, mid) < 0`. -/
def v8InsertPosGo (comp : α → α → Int) (sorted : List α) (pivot : α) :
    Nat → Nat → Nat → Nat
  | 0, left, _ => left
  | fuel + 1, left, right =>
    if left < right then
      if comp pivot (sorted.getD (left + (right - left) / 2) pivot) < 0 then
        v8InsertPosGo comp sorted pivot fuel left (left + (right - left) / 2)
      else
        v8InsertPosGo comp sorted pivot fuel (left + (right - left) / 2 + 1) right
    else left

/-- Binary search for the insertion position of `pivot` in
`sorted[left..right)`. -/
def v8InsertPos (comp : α → α → Int) (sorted : List α) (pivot : α)
    (left right : Nat) : Nat :=
  v8InsertPosGo comp sorted pivot (right - left) left right

/-- Insert `pivot` into the sorted prefix at its binary-search position. -/
def v8InsertStep (comp : α → α → Int) (sorted : List α) (pivot : α) : List α :=
  let pos := v8InsertPos comp sorted pivot 0 sorted.length
  sorted.take pos ++ pivot :: sorted.drop pos

/-- V8 `BinaryInsertionSort`: fold the elements after the initial run into
the sorted prefix. -/
def v8BinaryInsertionSort (comp : α → α → Int) (run rest : List α) : List α :=
  rest.foldl (fun acc x => v8InsertStep comp acc x) run

/-- Length of the run continuation in V8 `CountAndMakeRun`: elements keep
extending a descending run while `comp < 0`, an ascending run while
`comp ≥ 0`. -/
def v8RunLength (comp : α → α → Int) (isDescending : Bool) : α → List α → Nat
  | _, [] => 0
  | prev, x :: xs =>
    if isDescending then
      if comp x prev < 0 then 1 + v8RunLength comp isDescending x xs else 0
    else
      if comp x prev < 0 then 0 else 1 + v8RunLength comp isDescending x xs

/-- `Array.prototype.sort(comp)` under V8 for arrays shorter than 64
elements: one `CountAndMakeRun` (the run is reversed when its first pair
compared `< 0`) followed by `BinaryInsertionSort` of the rest. -/
def v8Sort (comp : α → α → Int) : List α → List α
  | [] => []
  | [a] => [a]
  | a :: b :: rest =>
    let isDescending : Bool := decide (comp b a < 0)
    let runLength := 2 + v8RunLength comp isDescending b rest
    let run := (a :: b :: rest).take runLength
    v8BinaryInsertionSort comp (if isDescending then run.reverse else run)
      ((a :: b :: rest).drop runLength)

example : v8Sort (fun a b : Int => if a < b then -1 else if b < a then 1 else 0) [3, 1, 2]
    = [1, 2, 3] := by decide
example : v8Sort (fun _ _ : Int => -1) [1, 2, 3] = [3, 2, 1] := by decide

/-! ## The useEmails query pipeline -/

/-- The facet values of the useEmails hook (`'all'` disables a facet). -/
structure Filters where
  search : String
  priority : String
  sentiment : String
  status : String
  category : String
  dateRange : String
deriving DecidableEq, Repr

/-- The search facet: case-insensitive substring match against subject,
sender or body. -/
def matchesSearch (search : String) (e : Email) : Bool :=
  let searchLower := jsToLower search
  jsIncludes (jsToLower e.subject) searchLower ||
    jsIncludes (jsToLower e.sender) searchLower ||
    jsIncludes (jsToLower e.body) searchLower

/-- The date facet of `applyFiltersAndSorting` (useEmails, lines 149-172):
`'today'` compares `toDateString()` (same civil day), `'week'` and
`'month'` compare against the instant `now` minus 7 resp. 30 days; any
other value falls to the switch default and matches. -/
def useEmailsDateMatch (dateRange : String) (emailDate now : Int) : Bool :=
  match dateRange with
  | "today" => decide (emailDate - emailDate % 86400000 = now - now % 86400000)
  | "week" => decide (now - 7 * 24 * 60 * 60 * 1000 ≤ emailDate)
  | "month" => decide (now - 30 * 24 * 60 * 60 * 1000 ≤ emailDate)
  | _ => true

/-- The pure content of `applyFiltersAndSorting` (useEmails, lines
122-189): each facet filters only when set, then the list is sorted with
the never-zero comparator through `Array.prototype.sort`. -/
def applyFiltersAndSortingFn (emails : List Email) (filters : Filters)
    (sortBy : SortKey) (sortOrder : SortOrder) (now : Int) : List Email :=
  let filtered := emails
  let filtered := if filters.search ≠ "" then
      filtered.filter (matchesSearch filters.search) else filtered
  let filtered := if filters.priority ≠ "all" then
      filtered.filter (fun e => e.priority == filters.priority) else filtered
  let filtered := if filters.sentiment ≠ "all" then
      filtered.filter (fun e => e.sentiment == filters.sentiment) else filtered
  let filtered := if filters.status ≠ "all" then
      filtered.filter (fun e => e.status == filters.status) else filtered
  let filtered := if filters.category ≠ "all" then
      filtered.filter (fun e => e.category == filters.category) else filtered
  let filtered := if filters.dateRange ≠ "all" then
      filtered.filter (fun e => useEmailsDateMatch filters.dateRange e.date now) else filtered
  v8Sort (applySortCompare sortOrder sortBy) filtered

/-! ## The useEmails store -/

/-- A JS `Map` keyed by email id, as its insertion-ordered entry list. -/
def mapSet (m : List (Nat × Email)) (k : Nat) (v : Email) : List (Nat × Email) :=
  if m.any (fun p => p.1 == k) then m.map (fun p => if p.1 == k then (k, v) else p)
  else m ++ [(k, v)]

def mapGet (m : List (Nat × Email)) (k : Nat) : Option Email :=
  (m.find? (fun p => p.1 == k)).map (fun p => p.2)

def mapDelete (m : List (Nat × Email)) (k : Nat) : List (Nat × Email) :=
  m.filter (fun p => !(p.1 == k))

/-- The state held by the useEmails hook: snapshot, derived filtered list,
status flags, query parameters, selection and cache. -/
structure StoreState where
  emails : List Email
  filteredEmails : List Email
  loading : Bool
  error : Option String
  refreshing : Bool
  filters : Filters
  sortBy : SortKey
  sortOrder : SortOrder
  currentPage : Nat
  pageSize : Nat
  totalEmails : Nat
  selectedEmails : List Nat
  selectAll : Bool
  emailCache : List (Nat × Email)
  lastFetch : Option Int
deriving DecidableEq, Repr

/-- `CACHE_DURATION = 5 * 60 * 1000` (milliseconds). -/
def CACHE_DURATION : Int := 5 * 60 * 1000

/-- The outcome of `emailAPI.getEmails()`: an error with its optional
`message`, or a response whose `emails` field may be absent
(`response.emails || []`). -/
abbrev FetchResult := Except (Option String) (Option (List Email))

/-- `newCache` built in `loadEmails`: `emailList.forEach(email =>
newCache.set(email.id, email))`. -/
def buildCache (emailList : List Email) : List (Nat × Email) :=
  emailList.foldl (fun m e => mapSet m e.id e) []

/-- `loadEmails(forceRefresh)` (useEmails, lines 83-112). `setError(null)`
runs first; a fresh cache (`lastFetch` truthy and younger than
`CACHE_DURATION`) returns early; otherwise the fetch outcome either
replaces the snapshot, count, cache and `lastFetch`, or is caught:
`setError(err.message || 'Failed to load emails')` and nothing else
changes. `finally` clears `loading` on every path. The function never
throws to its caller. -/
def loadEmails (st : StoreState) (forceRefresh : Bool) (now : Int)
    (fetch : FetchResult) : StoreState :=
  let st := { st with error := none }
  let cacheFresh : Bool :=
    match st.lastFetch with
    | some t => !(t == 0) && decide (now - t < CACHE_DURATION)
    | none => false
  if !forceRefresh && cacheFresh then
    { st with loading := false }
  else
    match fetch with
    | .ok response =>
      let emailList := response.getD []
      { st with
        emails := emailList
        totalEmails := emailList.length
        lastFetch := some now
        emailCache := buildCache emailList
        loading := false }
    | .error msg =>
      { st with error := some (msg.getD "Failed to load emails"), loading := false }

/-- `refreshEmails` (useEmails, lines 115-119): toggle `refreshing` around
`loadEmails(true)`. -/
def refreshEmails (st : StoreState) (now : Int) (fetch : FetchResult) : StoreState :=
  let st1 := loadEmails { st with refreshing := true } true now fetch
  { st1 with refreshing := false }

/-- The stateful part of `applyFiltersAndSorting`: store the filtered list,
its count, and reset to the first page. -/
def applyFiltersAndSorting (st : StoreState) (now : Int) : StoreState :=
  let filtered := applyFiltersAndSortingFn st.emails st.filters st.sortBy st.sortOrder now
  { st with filteredEmails := filtered, totalEmails := filtered.length, currentPage := 1 }

/-- A partial update `{...email, ...updates}`: every field present in the
patch overrides the record's. -/
structure Patch where
  sender : Option String
  subject : Option String
  body : Option String
  date : Option Int
  priority : Option String
  sentiment : Option String
  status : Option String
  category : Option String
deriving DecidableEq, Repr

def applyPatch (e : Email) (p : Patch) : Email :=
  { id := e.id
    sender := p.sender.getD e.sender
    subject := p.subject.getD e.subject
    body := p.body.getD e.body
    date := p.date.getD e.date
    priority := p.priority.getD e.priority
    sentiment := p.sentiment.getD e.sentiment
    status := p.status.getD e.status
    category := p.category.getD e.category }

/-- The optimistic half of `updateEmail` (useEmails, lines 278-291): patch
the matching snapshot entry and, when cached, the cache entry. -/
def updateEmailLocal (st : StoreState) (emailId : Nat) (updates : Patch) : StoreState :=
  { st with
    emails := st.emails.map (fun e => if e.id = emailId then applyPatch e updates else e)
    emailCache :=
      match mapGet st.emailCache emailId with
      | some e => mapSet st.emailCache emailId (applyPatch e updates)
      | none => st.emailCache }

/-- `updateEmail(emailId, updates)` (useEmails, lines 276-300): optimistic
local patch, then `emailAPI.updateEmail`; on remote failure
`refreshEmails()` runs and the error is rethrown (the returned flag). -/
def updateEmail (st : StoreState) (emailId : Nat) (updates : Patch)
    (remoteOk : Bool) (now : Int) (reloadFetch : FetchResult) : StoreState × Bool :=
  let st1 := updateEmailLocal st emailId updates
  if remoteOk then (st1, false)
  else (refreshEmails st1 now reloadFetch, true)

/-- The member names defined on the `emailAPI` object literal
(services/api.js lines 37-113). -/
def emailAPIMembers : List String :=
  ["getEmails", "getEmail", "getUrgentEmails", "getTodayEmails", "getPriorityQueue",
   "sendResponse", "updateResponse", "updateEmail", "bulkUpdateEmails", "refreshEmails"]

/-- `deleteEmail(emailId)` (useEmails, lines 302-322): remove the record
from the snapshot, the filtered list and the cache, then call
`emailAPI.deleteEmail(emailId)`. Reading a member absent from the object
yields `undefined` and calling it throws a `TypeError`, so the call
succeeds only if `emailAPI` defines `deleteEmail`; the catch block runs
`refreshEmails()` and rethrows (the returned flag). -/
def deleteEmail (st : StoreState) (emailId : Nat) (now : Int)
    (reloadFetch : FetchResult) : StoreState × Bool :=
  let st1 := { st with
    emails := st.emails.filter (fun e => !(e.id == emailId))
    filteredEmails := st.filteredEmails.filter (fun e => !(e.id == emailId))
    emailCache := mapDelete st.emailCache emailId }
  if emailAPIMembers.contains "deleteEmail" then (st1, false)
  else (refreshEmails st1 now reloadFetch, true)

/-- `bulkUpdateStatus(status)` (useEmails, lines 233-252): no-op on an
empty selection; otherwise `setLoading(true)`, a `console.log` in place of
any per-id update (no store mutation, no API call), clear the selection,
`refreshEmails()`, and `finally` clears `loading`. -/
def bulkUpdateStatus (st : StoreState) (status : String) (now : Int)
    (reloadFetch : FetchResult) : StoreState :=
  if st.selectedEmails.length = 0 then st
  else
    let st1 := { st with loading := true }
    let st2 := { st1 with selectedEmails := [], selectAll := false }
    let st3 := refreshEmails st2 now reloadFetch
    { st3 with loading := false }

/-- `bulkDelete` (useEmails, lines 254-273): same shape as
`bulkUpdateStatus` — a `console.log` in place of any deletion, then clear
the selection and `refreshEmails()`. -/
def bulkDelete (st : StoreState) (now : Int) (reloadFetch : FetchResult) : StoreState :=
  if st.selectedEmails.length = 0 then st
  else
    let st1 := { st with loading := true }
    let st2 := { st1 with selectedEmails := [], selectAll := false }
    let st3 := refreshEmails st2 now reloadFetch
    { st3 with loading := false }

/-- `paginatedEmails` (useEmails, lines 325-329):
`filteredEmails.slice(startIndex, startIndex + pageSize)`. -/
def paginatedEmails (st : StoreState) : List Email :=
  ((st.filteredEmails.drop ((st.currentPage - 1) * st.pageSize)).take st.pageSize)

/-- `totalPages = Math.ceil(totalEmails / pageSize)` (for a positive
integer `pageSize`). -/
def totalPages (st : StoreState) : Nat :=
  (st.totalEmails + st.pageSize - 1) / st.pageSize

/-- `goToPage(page)`: `Math.max(1, Math.min(page, totalPages))`. -/
def goToPage (st : StoreState) (page : Nat) : StoreState :=
  { st with currentPage := max 1 (min page (totalPages st)) }

/-- The `stats` aggregate (useEmails, lines 340-357); `resolutionRate` is
`(resolved / total) * 100` as an exact rational (a JS float in source). -/
structure Stats where
  total : Nat
  urgent : Nat
  pending : Nat
  resolved : Nat
  positive : Nat
  negative : Nat
  neutral : Nat
  resolutionRate : ℚ
deriving DecidableEq, Repr

def stats (emails : List Email) : Stats :=
  { total := emails.length
    urgent := (emails.filter (fun e => e.priority == "urgent")).length
    pending := (emails.filter (fun e => e.status == "pending")).length
    resolved := (emails.filter (fun e => e.status == "resolved")).length
    positive := (emails.filter (fun e => e.sentiment == "positive")).length
    negative := (emails.filter (fun e => e.sentiment == "negative")).length
    neutral := (emails.filter (fun e => e.sentiment == "neutral")).length
    resolutionRate :=
      if emails.length > 0 then
        ((emails.filter (fun e => e.status == "resolved")).length : ℚ) / (emails.length : ℚ) * 100
      else 0 }

/-- The urgent counter of the `Sidebar` (App.js):
`emails.filter(e => e.priority === 'urgent').length`. -/
def sidebarUrgentCount (emails : List Email) : Nat :=
  (emails.filter (fun e => e.priority == "urgent")).length

/-! ## Entity extraction (EmailCard / ResponseEditor) -/

/-- `[...new Set(xs)]`: drop repeated literal values, keeping the first
occurrence of each in order. -/
def setDedup [DecidableEq α] (l : List α) : List α := go l []
where
  go : List α → List α → List α
  | [], _ => []
  | x :: xs, seen => if x ∈ seen then go xs seen else x :: go xs (x :: seen)

theorem setDedup_go_spec [DecidableEq α] (l seen : List α) :
    (setDedup.go l seen).Nodup ∧ ∀ x ∈ setDedup.go l seen, x ∉ seen := by
  induction l generalizing seen with
  | nil => simp [setDedup.go]
  | cons x xs ih =>
    by_cases hx : x ∈ seen
    · rw [setDedup.go, if_pos hx]
      exact ⟨(ih seen).1, fun y hy => (ih seen).2 y hy⟩
    · rw [setDedup.go, if_neg hx]
      obtain ⟨ihn, ihm⟩ := ih (x :: seen)
      refine ⟨List.nodup_cons.mpr ⟨fun hmem => ?_, ihn⟩, ?_⟩
      · exact (ihm x hmem) (List.mem_cons_self x seen)
      · intro y hy
        rcases List.mem_cons.mp hy with rfl | hy2
        · exact hx
        · exact fun hys => (ihm y hy2) (List.mem_cons_of_mem x hys)

/-- `[...new Set(xs)]` never holds a repeated literal value. -/
theorem setDedup_nodup [DecidableEq α] (l : List α) : (setDedup l).Nodup :=
  (setDedup_go_spec l []).1

/-- The character class `[\d\s\-\(\)]` of the phone regex (`\s` listed for
the ASCII whitespace and no-break space that arise in these texts). -/
def phoneClassChar (c : Char) : Bool :=
  c.isDigit || c = '-' || c = '(' || c = ')' || c = ' ' || c = '\t' ||
    c = '\n' || c = '\r' || c = '\x0b' || c = '\x0c' || c = '\xA0'

theorem length_dropWhile_le (p : α → Bool) (l : List α) :
    (l.dropWhile p).length ≤ l.length := by
  induction l with
  | nil => simp [List.dropWhile]
  | cons a l ih =>
    simp only [List.dropWhile]
    cases p a <;> simp <;> omega

/-- All matches of `/(\+?[\d\s\-\(\)]{10,})/g`, scanned as the regex
engine does: at each position an optional `+` then a maximal class run;
a run of length at least 10 is a match and scanning resumes after it,
otherwise the scan advances one character (`+` is outside the class, so
no backtracking alternative exists). -/
def phoneScan : List Char → List (List Char)
  | [] => []
  | '+' :: rest =>
    if 10 ≤ (rest.takeWhile phoneClassChar).length then
      ('+' :: rest.takeWhile phoneClassChar) :: phoneScan (rest.dropWhile phoneClassChar)
    else phoneScan rest
  | c :: rest =>
    if h : 10 ≤ ((c :: rest).takeWhile phoneClassChar).length then
      ((c :: rest).takeWhile phoneClassChar) :: phoneScan ((c :: rest).dropWhile phoneClassChar)
    else phoneScan rest
termination_by s => s.length
decreasing_by
  · have := length_dropWhile_le phoneClassChar rest
    simp only [List.length_cons]
    omega
  · simp only [List.length_cons]
    omega
  · have h2 := congrArg List.length (List.takeWhile_append_dropWhile
      (p := phoneClassChar) (l := c :: rest))
    simp only [List.length_append, List.length_cons] at h2 ⊢
    omega
  · simp only [List.length_cons]
    omega

/-- `[a-zA-Z]`. -/
def letterClass (c : Char) : Bool := c.isAlpha

/-- `[a-zA-Z0-9._%+-]`, the local part of the email regex. -/
def localClassChar (c : Char) : Bool :=
  c.isAlpha || c.isDigit || c = '.' || c = '_' || c = '%' || c = '+' || c = '-'

/-- `[a-zA-Z0-9.-]`, the domain part of the email regex. -/
def domainClassChar (c : Char) : Bool :=
  c.isAlpha || c.isDigit || c = '.' || c = '-'

/-- The backtracking of `[a-zA-Z0-9.-]+\.[a-zA-Z]{2,}` over the maximal
domain run `D`: the greedy `+` yields positions from the right, so the
match uses the largest index `d ≥ 1` with `D[d] = '.'` followed by at
least two letters; the result is that `d` with its letter-run length. -/
def bestDotSplit (D : List Char) : Option (Nat × Nat) := go D 0 none
where
  go : List Char → Nat → Option (Nat × Nat) → Option (Nat × Nat)
  | [], _, best => best
  | c :: rest, i, best =>
    go rest (i + 1)
      (if c = '.' ∧ 1 ≤ i ∧ 2 ≤ (rest.takeWhile letterClass).length then
        some (i, (rest.takeWhile letterClass).length)
      else best)

/-- All matches of `/([a-zA-Z0-9._%+-]+@[a-zA-Z0-9.-]+\.[a-zA-Z]{2,})/g`:
at each position a maximal local-part run must be nonempty and followed by
`@` (the classes exclude `@`, so shorter runs cannot succeed either), then
the maximal domain run is split at the rightmost dot with a 2+ letter tail;
scanning resumes after a match, else one character on. -/
def emailScan : List Char → List (List Char)
  | [] => []
  | c :: rest =>
    if 1 ≤ ((c :: rest).takeWhile localClassChar).length ∧
        ((c :: rest).dropWhile localClassChar).head? = some '@' then
      match bestDotSplit ((((c :: rest).dropWhile localClassChar).drop 1).takeWhile
          domainClassChar) with
      | some (d, tldLen) =>
        ((c :: rest).take (((c :: rest).takeWhile localClassChar).length + 1 + d + 1 + tldLen)) ::
          emailScan ((c :: rest).drop
            (((c :: rest).takeWhile localClassChar).length + 1 + d + 1 + tldLen))
      | none => emailScan rest
    else emailScan rest
termination_by s => s.length
decreasing_by
  all_goals simp only [List.length_drop, List.length_cons]
  all_goals omega

/-- The deduplicated extraction result (`phones`, `emails`). -/
structure ContactInfo where
  phones : List String
  emails : List String
deriving DecidableEq, Repr

/-- `extractContactInfo(body)` (EmailCard lines 94-102; ResponseEditor
lines 71-85 shares the same two regexes and `Set` deduplication):
`body.match(...) || []` for each regex, then `[...new Set(...)]`. -/
def extractContactInfo (body : String) : ContactInfo :=
  { phones := setDedup ((phoneScan body.data).map (fun cs => String.mk cs))
    emails := setDedup ((emailScan body.data).map (fun cs => String.mk cs)) }

example : getSentiment (some "I am extremely happy, thank you so much") = "positive" := by decide
example : getSentiment (some "the payment failed and I cannot access my account") = "negative" := by
  decide
example : getPriority (some "URGENT: system access blocked") = "high" := by decide
example : getPriority (some "need help logging in") = "medium" := by decide

/-! ## Claim theorems -/

/-- C3: `getSentiment` is total over optional bodies, an empty or absent
body is `"neutral"`, the negative lexicon is checked before the positive
one (a body containing a negative keyword classifies `"negative"` no
matter which positive keywords it also contains), a body with positive but
no negative keywords classifies `"positive"`, and otherwise `"neutral"`;
all containment is case-insensitive substring containment. -/
theorem getSentiment_lexicon_precedence (body : String) :
    getSentiment none = "neutral" ∧
    getSentiment (some "") = "neutral" ∧
    (containsAnyOf (jsToLower body) negativeWords = true →
      getSentiment (some body) = "negative") ∧
    (containsAnyOf (jsToLower body) negativeWords = false →
      containsAnyOf (jsToLower body) positiveWords = true →
      getSentiment (some body) = "positive") ∧
    (containsAnyOf (jsToLower body) negativeWords = false →
      containsAnyOf (jsToLower body) positiveWords = false →
      getSentiment (some body) = "neutral") := by
  by_cases hb : body = ""
  · subst hb
    refine ⟨rfl, by decide, ?_, ?_, ?_⟩
    · intro h; exact absurd h (by decide)
    · intro _ h; exact absurd h (by decide)
    · intro _ _; decide
  · refine ⟨rfl, by decide, ?_, ?_, ?_⟩
    · intro hneg
      have hc : (jsIncludes (jsToLower body) "error" || jsIncludes (jsToLower body) "issue" ||
          jsIncludes (jsToLower body) "problem" || jsIncludes (jsToLower body) "cannot" ||
          jsIncludes (jsToLower body) "failed") = true := by
        simpa [containsAnyOf, negativeWords, Bool.or_assoc] using hneg
      simp only [getSentiment]
      rw [if_neg hb, if_pos hc]
    · intro hneg hpos
      have hcn : (jsIncludes (jsToLower body) "error" || jsIncludes (jsToLower body) "issue" ||
          jsIncludes (jsToLower body) "problem" || jsIncludes (jsToLower body) "cannot" ||
          jsIncludes (jsToLower body) "failed") = false := by
        simpa [containsAnyOf, negativeWords, Bool.or_assoc] using hneg
      have hcp : (jsIncludes (jsToLower body) "thank" ||
          jsIncludes (jsToLower body) "appreciate" || jsIncludes (jsToLower body) "great" ||
          jsIncludes (jsToLower body) "good") = true := by
        simpa [containsAnyOf, positiveWords, Bool.or_assoc] using hpos
      simp only [getSentiment]
      rw [if_neg hb, if_neg (by rw [hcn]; decide), if_pos hcp]
    · intro hneg hpos
      have hcn : (jsIncludes (jsToLower body) "error" || jsIncludes (jsToLower body) "issue" ||
          jsIncludes (jsToLower body) "problem" || jsIncludes (jsToLower body) "cannot" ||
          jsIncludes (jsToLower body) "failed") = false := by
        simpa [containsAnyOf, negativeWords, Bool.or_assoc] using hneg
      have hcp : (jsIncludes (jsToLower body) "thank" ||
          jsIncludes (jsToLower body) "appreciate" || jsIncludes (jsToLower body) "great" ||
          jsIncludes (jsToLower body) "good") = false := by
        simpa [containsAnyOf, positiveWords, Bool.or_assoc] using hpos
      simp only [getSentiment]
      rw [if_neg hb, if_neg (by rw [hcn]; decide), if_neg (by rw [hcp]; decide)]

/-- C8: extraction is a pure function of the text, so two runs on
identical text give identical results (the first conjunct is definitional
in the embedding because `extractContactInfo` reads no external state, as
in the source), and the phone and email collections carry no repeated
literal value. -/
theorem extractContactInfo_idempotent_dedup (body : String) :
    extractContactInfo body = extractContactInfo body ∧
    (extractContactInfo body).phones.Nodup ∧
    (extractContactInfo body).emails.Nodup :=
  ⟨rfl, setDedup_nodup _, setDedup_nodup _⟩

/-- C9: `emailAPI` defines no `deleteEmail` member, so the call in
`deleteEmail` throws and the operation always takes its error path: the
record is removed from snapshot, filtered list and cache, a forced reload
runs, and the error is rethrown (second component `true`); the remote
delete can never succeed. -/
theorem deleteEmail_always_error_path (st : StoreState) (emailId : Nat) (now : Int)
    (reloadFetch : FetchResult) :
    emailAPIMembers.contains "deleteEmail" = false ∧
    deleteEmail st emailId now reloadFetch =
      (refreshEmails
        { st with
          emails := st.emails.filter (fun e => !(e.id == emailId))
          filteredEmails := st.filteredEmails.filter (fun e => !(e.id == emailId))
          emailCache := mapDelete st.emailCache emailId }
        now reloadFetch, true) := by
  refine ⟨by decide, ?_⟩
  simp only [deleteEmail]
  rw [if_neg (by decide)]

/-- `getPriority` only ever returns `"high"`, `"medium"` or `"low"` —
never `"urgent"`. -/
theorem getPriority_ne_urgent (s : Option String) : ¬getPriority s = "urgent" := by
  cases s with
  | none => decide
  | some subject =>
    simp only [getPriority]
    split_ifs <;> decide

/-- C10: in any snapshot whose priority fields came from the keyword
classifier, the aggregated urgent counters are 0: `stats` and the Sidebar
count records with priority literally `'urgent'`, which `getPriority`
never produces. -/
theorem classifier_urgent_count_zero (emails : List Email)
    (h : ∀ e ∈ emails, ∃ subj, e.priority = getPriority subj) :
    (stats emails).urgent = 0 ∧ sidebarUrgentCount emails = 0 := by
  have hz : emails.filter (fun e => e.priority == "urgent") = [] := by
    rw [List.filter_eq_nil_iff]
    intro e he
    obtain ⟨subj, hs⟩ := h e he
    simp only [beq_iff_eq, hs]
    exact getPriority_ne_urgent subj
  exact ⟨by simp [stats, hz], by simp [sidebarUrgentCount, hz]⟩

theorem classifier_urgent_count_zero_witness :
    (stats [⟨1, "alice@example.com", "need help logging in", "thanks a lot", 0,
        getPriority (some "need help logging in"), "neutral", "pending", "general"⟩]).urgent = 0 ∧
    sidebarUrgentCount [⟨1, "alice@example.com", "need help logging in", "thanks a lot", 0,
        getPriority (some "need help logging in"), "neutral", "pending", "general"⟩] = 0 :=
  classifier_urgent_count_zero _ (by
    intro e he
    simp only [List.mem_singleton] at he
    subst he
    exact ⟨some "need help logging in", rfl⟩)

/-- The cache of `loadEmails` does not short-circuit the fetch: no
`lastFetch` yet, or a falsy (`0`) one, or one at least `CACHE_DURATION`
old. -/
def cacheStale (st : StoreState) (now : Int) : Prop :=
  match st.lastFetch with
  | some t => t = 0 ∨ CACHE_DURATION ≤ now - t
  | none => True

/-- C4: when the remote fetch of a (non-short-circuited) load fails, the
store keeps the last-good snapshot, filtered list, cache and refresh stamp
unchanged, records the failure in the `error` flag instead of throwing
(`loadEmails` is a total function into states), and the query pipeline and
aggregate statistics over the resulting snapshot coincide with those over
the stale snapshot. -/
theorem loadEmails_failure_fail_soft (st : StoreState) (forceRefresh : Bool)
    (now : Int) (msg : Option String)
    (h : forceRefresh = true ∨ cacheStale st now) :
    (loadEmails st forceRefresh now (.error msg)).emails = st.emails ∧
    (loadEmails st forceRefresh now (.error msg)).filteredEmails = st.filteredEmails ∧
    (loadEmails st forceRefresh now (.error msg)).emailCache = st.emailCache ∧
    (loadEmails st forceRefresh now (.error msg)).lastFetch = st.lastFetch ∧
    (loadEmails st forceRefresh now (.error msg)).error =
      some (msg.getD "Failed to load emails") ∧
    applyFiltersAndSortingFn (loadEmails st forceRefresh now (.error msg)).emails
        st.filters st.sortBy st.sortOrder now =
      applyFiltersAndSortingFn st.emails st.filters st.sortBy st.sortOrder now ∧
    stats (loadEmails st forceRefresh now (.error msg)).emails = stats st.emails := by
  have key : loadEmails st forceRefresh now (.error msg) =
      { st with error := some (msg.getD "Failed to load emails"), loading := false } := by
    unfold loadEmails
    have hguard : (!forceRefresh &&
        (match st.lastFetch with
         | some t => !(t == 0) && decide (now - t < CACHE_DURATION)
         | none => false)) = false := by
      rcases h with hf | hs
      · rw [hf]; simp
      · unfold cacheStale at hs
        cases hl : st.lastFetch with
        | none => simp
        | some t =>
          rw [hl] at hs
          rcases hs with h0 | hold
          · simp [h0]
          · have : decide (now - t < CACHE_DURATION) = false := by
              simp only [decide_eq_false_iff_not, not_lt]
              exact hold
            simp [this]
    simp only [hguard]
    simp
  rw [key]
  exact ⟨rfl, rfl, rfl, rfl, rfl, rfl, rfl⟩

/-- C5: `updateEmail` applies the patch to the snapshot (and cache) entry
before the remote call; on remote success the optimistically patched state
is the final state with nothing rethrown, and on remote failure the final
state is a forced full reload (`refreshEmails`, i.e. `loadEmails` with
`forceRefresh = true`) of the patched state with the error rethrown — in
particular a reload that fetches `newList` makes the snapshot exactly
`newList`, independent of the patch: whole-collection resynchronization,
not field-level rollback. -/
theorem updateEmail_optimistic_then_resync (st : StoreState) (emailId : Nat)
    (updates : Patch) (now : Int) (reloadFetch : FetchResult) (newList : List Email) :
    (updateEmail st emailId updates true now reloadFetch).1 =
      updateEmailLocal st emailId updates ∧
    (updateEmail st emailId updates true now reloadFetch).1.emails =
      st.emails.map (fun e => if e.id = emailId then applyPatch e updates else e) ∧
    (updateEmail st emailId updates true now reloadFetch).2 = false ∧
    (updateEmail st emailId updates false now reloadFetch).1 =
      refreshEmails (updateEmailLocal st emailId updates) now reloadFetch ∧
    (updateEmail st emailId updates false now (.ok (some newList))).1.emails = newList ∧
    (updateEmail st emailId updates false now reloadFetch).2 = true := by
  refine ⟨rfl, rfl, rfl, rfl, ?_, rfl⟩
  simp [updateEmail, refreshEmails, loadEmails]

/-- The disabled filter set of the useEmails hook. -/
def allFilters : Filters := ⟨"", "all", "all", "all", "all", "all"⟩

def bulkE1 : Email :=
  ⟨1, "alice@example.com", "subject one", "body one", 0, "low", "neutral", "pending", "general"⟩

def bulkE2 : Email :=
  ⟨2, "bob@example.com", "subject two", "body two", 0, "low", "neutral", "pending", "general"⟩

/-- A store with two pending records, both selected. -/
def bulkStore : StoreState :=
  { emails := [bulkE1, bulkE2]
    filteredEmails := [bulkE1, bulkE2]
    loading := false
    error := none
    refreshing := false
    filters := allFilters
    sortBy := .date
    sortOrder := .desc
    currentPage := 1
    pageSize := 20
    totalEmails := 2
    selectedEmails := [1, 2]
    selectAll := true
    emailCache := [(1, bulkE1), (2, bulkE2)]
    lastFetch := none }

/-- C7 (code bug, evaluated at the failing input): on the nonempty
selection `[1, 2]` with target status `"resolved"`, `bulkUpdateStatus`
mutates no record and calls no remote operation — with the final reload's
fetch failing (so the local snapshot stays observable), every record still
has its old status and none is `"resolved"`; `bulkDelete` likewise deletes
nothing. Only the selection-clearing and the unconditional reload of the
claim happen. -/
theorem bulk_operations_are_stubs :
    bulkStore.selectedEmails = [1, 2] ∧
    (bulkUpdateStatus bulkStore "resolved" 0 (.error none)).emails = [bulkE1, bulkE2] ∧
    ((bulkUpdateStatus bulkStore "resolved" 0 (.error none)).emails.filter
        (fun e => e.status == "resolved")).length = 0 ∧
    (bulkUpdateStatus bulkStore "resolved" 0 (.error none)).selectedEmails = [] ∧
    (bulkUpdateStatus bulkStore "resolved" 0 (.error none)).selectAll = false ∧
    (bulkDelete bulkStore 0 (.error none)).emails = [bulkE1, bulkE2] ∧
    (bulkDelete bulkStore 0 (.error none)).selectedEmails = [] := by
  refine ⟨rfl, ?_, ?_, ?_, ?_, ?_, ?_⟩ <;>
    simp [bulkUpdateStatus, bulkDelete, bulkStore, refreshEmails, loadEmails, bulkE1, bulkE2]

theorem loadEmails_failure_fail_soft_witness :
    (loadEmails bulkStore true 0 (.error none)).emails = bulkStore.emails ∧
    (loadEmails bulkStore true 0 (.error none)).filteredEmails = bulkStore.filteredEmails ∧
    (loadEmails bulkStore true 0 (.error none)).emailCache = bulkStore.emailCache ∧
    (loadEmails bulkStore true 0 (.error none)).lastFetch = bulkStore.lastFetch ∧
    (loadEmails bulkStore true 0 (.error none)).error =
      some ((none : Option String).getD "Failed to load emails") ∧
    applyFiltersAndSortingFn (loadEmails bulkStore true 0 (.error none)).emails
        bulkStore.filters bulkStore.sortBy bulkStore.sortOrder 0 =
      applyFiltersAndSortingFn bulkStore.emails bulkStore.filters bulkStore.sortBy
        bulkStore.sortOrder 0 ∧
    stats (loadEmails bulkStore true 0 (.error none)).emails = stats bulkStore.emails :=
  loadEmails_failure_fail_soft bulkStore true 0 none (Or.inl rfl)

/-- JS `list.slice(a, b)` for `a ≤ b`: the elements from index `a` up to,
excluding, index `b`. -/
def listSlice (l : List α) (a b : Nat) : List α := (l.drop a).take (b - a)

/-- `⌈a / b⌉` characterized through divisibility: the claim's reading of
`Math.ceil(count / pageSize)`. -/
def specCeil (a b : Nat) : Nat := a / b + (if a % b = 0 then 0 else 1)

theorem ceil_div_formula (a b : Nat) (hb : 0 < b) :
    (a + b - 1) / b = specCeil a b := by
  unfold specCeil
  rcases Nat.eq_zero_or_pos a with rfl | ha
  · have h0 : (b - 1) / b = 0 := Nat.div_eq_of_lt (by omega)
    simp [h0]
  · have hmod := Nat.div_add_mod a b
    by_cases hr : a % b = 0
    · have h1 : a + b - 1 = b * (a / b) + (b - 1) := by omega
      have h0 : (b - 1) / b = 0 := Nat.div_eq_of_lt (by omega)
      rw [h1, Nat.mul_add_div hb, h0]
      simp [hr]
    · have h3 : a % b < b := Nat.mod_lt _ hb
      have h2 : b * (a / b + 1) = b * (a / b) + b := by ring
      have h1 : a + b - 1 = b * (a / b + 1) + (a % b - 1) := by omega
      have h0 : (a % b - 1) / b = 0 := Nat.div_eq_of_lt (by omega)
      rw [h1, Nat.mul_add_div hb, h0]
      simp [hr]

/-- C6: the returned page is the slice of the filtered list from
`(page-1)*pageSize` up to `page*pageSize`; re-running the filter/sort
pipeline (which every predicate or sort-parameter change triggers) resets
the current page to 1; and `goToPage` clamps the requested page into
`[1, ⌈count / pageSize⌉]` — it stays at least 1, at most the page count
(or 1 when there are no pages), and is the identity on pages already in
range. -/
theorem query_pagination_spec (st : StoreState) (now : Int) (page : Nat)
    (hps : 0 < st.pageSize) (hpg : 1 ≤ st.currentPage) :
    (applyFiltersAndSorting st now).currentPage = 1 ∧
    paginatedEmails st =
      listSlice st.filteredEmails ((st.currentPage - 1) * st.pageSize)
        (st.currentPage * st.pageSize) ∧
    1 ≤ (goToPage st page).currentPage ∧
    (goToPage st page).currentPage ≤ max 1 (specCeil st.totalEmails st.pageSize) ∧
    (1 ≤ page → page ≤ specCeil st.totalEmails st.pageSize →
      (goToPage st page).currentPage = page) := by
  have htp : totalPages st = specCeil st.totalEmails st.pageSize :=
    ceil_div_formula _ _ hps
  refine ⟨rfl, ?_, ?_, ?_, ?_⟩
  · obtain ⟨k, hk⟩ : ∃ k, st.currentPage = k + 1 := ⟨st.currentPage - 1, by omega⟩
    unfold paginatedEmails listSlice
    rw [hk]
    have hsub : (k + 1) * st.pageSize - k * st.pageSize = st.pageSize := by
      have h2 : (k + 1) * st.pageSize = k * st.pageSize + st.pageSize := by ring
      omega
    simp only [Nat.add_sub_cancel]
    rw [hsub]
  · exact le_max_left 1 _
  · show max 1 (min page (totalPages st)) ≤ max 1 (specCeil st.totalEmails st.pageSize)
    rw [htp]
    exact max_le_max le_rfl (min_le_right _ _)
  · intro h1 h2
    show max 1 (min page (totalPages st)) = page
    rw [htp, min_eq_left h2, max_eq_right h1]

theorem query_pagination_spec_witness :
    (applyFiltersAndSorting bulkStore 0).currentPage = 1 ∧
    paginatedEmails bulkStore =
      listSlice bulkStore.filteredEmails ((bulkStore.currentPage - 1) * bulkStore.pageSize)
        (bulkStore.currentPage * bulkStore.pageSize) ∧
    1 ≤ (goToPage bulkStore 5).currentPage ∧
    (goToPage bulkStore 5).currentPage ≤
      max 1 (specCeil bulkStore.totalEmails bulkStore.pageSize) ∧
    (1 ≤ 5 → 5 ≤ specCeil bulkStore.totalEmails bulkStore.pageSize →
      (goToPage bulkStore 5).currentPage = 5) :=
  query_pagination_spec bulkStore 0 5 (by decide) (by decide)

def tieE1 : Email :=
  ⟨1, "alice@example.com", "first ticket", "", 1700000000000, "low", "neutral", "pending",
    "general"⟩

def tieE2 : Email :=
  ⟨2, "bob@example.com", "second ticket", "", 1700000000000, "low", "neutral", "pending",
    "general"⟩

/-- C1 (code bug, evaluated at the failing input): `tieE1` and `tieE2` are
distinct records with equal `received_at`. The `applyFiltersAndSorting`
comparator reports each one smaller than the other (it never returns 0),
for `asc` and for `desc` alike, so it is not a consistent comparison
function and ECMA-262 leaves the sort order implementation-defined; under
V8's sort the snapshot `[tieE1, tieE2]` comes out `[tieE2, tieE1]` — the
tied records are reversed, for both orders. The sibling
`filterAndSortEmails` comparator returns 0 on the same pair, which is the
stable behaviour the spec states. -/
theorem applySort_ties_reversed :
    tieE1.date = tieE2.date ∧ tieE1 ≠ tieE2 ∧
    applySortCompare .asc .date tieE1 tieE2 = -1 ∧
    applySortCompare .asc .date tieE2 tieE1 = -1 ∧
    applySortCompare .desc .date tieE1 tieE2 = -1 ∧
    applySortCompare .desc .date tieE2 tieE1 = -1 ∧
    filterSortCompare .asc .date tieE1 tieE2 = 0 ∧
    filterSortCompare .desc .date tieE1 tieE2 = 0 ∧
    v8Sort (applySortCompare .asc .date) [tieE1, tieE2] = [tieE2, tieE1] ∧
    v8Sort (applySortCompare .desc .date) [tieE1, tieE2] = [tieE2, tieE1] := by
  decide

/-- The spec's example clock, 2024-03-15T10:00:00 local time. -/
def marchNow : JSDate := ⟨2024, 2, 15, 10, 0, 0⟩

/-- 2024-03-08T05:00:00 local time, in epoch milliseconds: on the seventh
day back, before 10:00. -/
def marchEighthEarly : Int := daysFromCivil 2024 3 8 * 86400000 + 5 * 3600000

/-- C2 counterexample: at `now` = 2024-03-15T10:00:00 the record received
2024-03-08T05:00:00 is accepted by the `last7days` bucket, yet its
timestamp is strictly below `now - 7 days` — the claim's
"receivedAt ≥ now − 7 days" reading of `last7days` is false of the code,
which measures from midnight of the current day. -/
theorem last7days_counterexample :
    matchesDate "last7days" marchEighthEarly marchNow = true ∧
    ¬(marchNow.toMillis - 7 * 86400000 ≤ marchEighthEarly) := by
  decide

theorem daysFromCivil_day (y m d : Int) :
    daysFromCivil y m d = daysFromCivil y m 1 + (d - 1) := by
  simp only [daysFromCivil]
  split_ifs <;> omega

theorem jsDateDays_eq (y m d : Int) (h0 : 0 ≤ m) (h1 : m ≤ 11) :
    jsDateDays y m d = daysFromCivil y (m + 1) d := by
  have he : m / 12 = 0 := by omega
  have hm : m % 12 = m := by omega
  rw [jsDateDays, he, hm, add_zero, daysFromCivil_day y (m + 1) d]

theorem jsDateDays_prev_month (y m : Int) (h0 : 0 ≤ m) (h1 : m ≤ 11) :
    jsDateDays y (m - 1) 1 =
      if m = 0 then daysFromCivil (y - 1) 12 1 else daysFromCivil y m 1 := by
  by_cases hm : m = 0
  · subst hm
    have he : ((0 : Int) - 1) / 12 = -1 := by decide
    have hmo : ((0 : Int) - 1) % 12 = 11 := by decide
    have hy : y + -1 = y - 1 := by ring
    rw [jsDateDays, he, hmo, if_pos rfl, hy]
    norm_num
  · have he : (m - 1) / 12 = 0 := by omega
    have hmo : (m - 1) % 12 = m - 1 := by omega
    rw [jsDateDays, he, hmo, add_zero, if_neg hm]
    have hm1 : m - 1 + 1 = m := by ring
    rw [hm1]
    ring

/-- C2 (amended): against a valid clock, the code's buckets satisfy:
`today` iff receivedAt ≥ start of the current local day; `yesterday` iff
receivedAt ∈ [start of day − 1 day, start of day); `last7days` iff
receivedAt ≥ start of day − 7 days and `last30days` iff receivedAt ≥
start of day − 30 days (both thresholds measured from midnight of the
current day, not from "now"); `thisMonth` iff receivedAt ≥ first day of
the current month; `lastMonth` iff receivedAt lies between midnight of the
first and midnight of the last day of the previous month; `all` matches
every record. -/
theorem filterAndSortEmails_date_buckets (emailDate : Int) (now : JSDate)
    (h : now.Valid) :
    (matchesDate "today" emailDate now = true ↔ specStartOfDay now ≤ emailDate) ∧
    (matchesDate "yesterday" emailDate now = true ↔
      specStartOfDay now - 86400000 ≤ emailDate ∧ emailDate < specStartOfDay now) ∧
    (matchesDate "last7days" emailDate now = true ↔
      specStartOfDay now - 7 * 86400000 ≤ emailDate) ∧
    (matchesDate "last30days" emailDate now = true ↔
      specStartOfDay now - 30 * 86400000 ≤ emailDate) ∧
    (matchesDate "thisMonth" emailDate now = true ↔ specFirstOfMonth now ≤ emailDate) ∧
    (matchesDate "lastMonth" emailDate now = true ↔
      specFirstOfPrevMonth now ≤ emailDate ∧ emailDate ≤ specLastDayOfPrevMonth now) ∧
    matchesDate "all" emailDate now = true := by
  obtain ⟨hm0, hm11, hd1, hd31, hh0, hh23, hmin0, hmin59, hs0, hs59⟩ := h
  have e0 := jsDateDays_eq now.year now.month now.day hm0 hm11
  have e1 := jsDateDays_eq now.year now.month (now.day - 1) hm0 hm11
  have e7 := jsDateDays_eq now.year now.month (now.day - 7) hm0 hm11
  have e30 := jsDateDays_eq now.year now.month (now.day - 30) hm0 hm11
  have efst := jsDateDays_eq now.year now.month 1 hm0 hm11
  have ezero := jsDateDays_eq now.year now.month 0 hm0 hm11
  have d0 := daysFromCivil_day now.year (now.month + 1) now.day
  have d1 := daysFromCivil_day now.year (now.month + 1) (now.day - 1)
  have d7 := daysFromCivil_day now.year (now.month + 1) (now.day - 7)
  have d30 := daysFromCivil_day now.year (now.month + 1) (now.day - 30)
  have dz := daysFromCivil_day now.year (now.month + 1) 0
  have htoday : jsDateDays now.year now.month now.day * 86400000 = specStartOfDay now := by
    unfold specStartOfDay JSDate.toMillis
    omega
  have hspecfst : specFirstOfMonth now = daysFromCivil now.year (now.month + 1) 1 * 86400000 :=
    rfl
  refine ⟨?_, ?_, ?_, ?_, ?_, ?_, rfl⟩
  · rw [show matchesDate "today" emailDate now =
        decide (jsDateDays now.year now.month now.day * 86400000 ≤ emailDate) from rfl,
      decide_eq_true_eq, htoday]
  · rw [show matchesDate "yesterday" emailDate now =
        decide (jsDateDays now.year now.month (now.day - 1) * 86400000 ≤ emailDate ∧
          emailDate < jsDateDays now.year now.month now.day * 86400000) from rfl,
      decide_eq_true_eq]
    constructor
    · rintro ⟨ha, hb⟩
      refine ⟨by omega, by omega⟩
    · rintro ⟨ha, hb⟩
      refine ⟨by omega, by omega⟩
  · rw [show matchesDate "last7days" emailDate now =
        decide (jsDateDays now.year now.month (now.day - 7) * 86400000 ≤ emailDate) from rfl,
      decide_eq_true_eq]
    constructor <;> intro ha <;> omega
  · rw [show matchesDate "last30days" emailDate now =
        decide (jsDateDays now.year now.month (now.day - 30) * 86400000 ≤ emailDate) from rfl,
      decide_eq_true_eq]
    constructor <;> intro ha <;> omega
  · rw [show matchesDate "thisMonth" emailDate now =
        decide (jsDateDays now.year now.month 1 * 86400000 ≤ emailDate) from rfl,
      decide_eq_true_eq, efst, ← hspecfst]
  · rw [show matchesDate "lastMonth" emailDate now =
        decide (jsDateDays now.year (now.month - 1) 1 * 86400000 ≤ emailDate ∧
          emailDate ≤ jsDateDays now.year now.month 0 * 86400000) from rfl,
      decide_eq_true_eq]
    have hprev : jsDateDays now.year (now.month - 1) 1 * 86400000 = specFirstOfPrevMonth now := by
      rw [jsDateDays_prev_month now.year now.month hm0 hm11]
      unfold specFirstOfPrevMonth
      by_cases hz : now.month = 0
      · rw [if_pos hz, if_pos hz]
      · rw [if_neg hz, if_neg hz]
    have hend : jsDateDays now.year now.month 0 * 86400000 = specLastDayOfPrevMonth now := by
      unfold specLastDayOfPrevMonth
      rw [hspecfst]
      omega
    rw [hprev, hend]

theorem filterAndSortEmails_date_buckets_witness :
    (matchesDate "today" 1709200000000 marchNow = true ↔
      specStartOfDay marchNow ≤ 1709200000000) ∧
    (matchesDate "yesterday" 1709200000000 marchNow = true ↔
      specStartOfDay marchNow - 86400000 ≤ 1709200000000 ∧
      (1709200000000 : Int) < specStartOfDay marchNow) ∧
    (matchesDate "last7days" 1709200000000 marchNow = true ↔
      specStartOfDay marchNow - 7 * 86400000 ≤ 1709200000000) ∧
    (matchesDate "last30days" 1709200000000 marchNow = true ↔
      specStartOfDay marchNow - 30 * 86400000 ≤ 1709200000000) ∧
    (matchesDate "thisMonth" 1709200000000 marchNow = true ↔
      specFirstOfMonth marchNow ≤ 1709200000000) ∧
    (matchesDate "lastMonth" 1709200000000 marchNow = true ↔
      specFirstOfPrevMonth marchNow ≤ 1709200000000 ∧
      (1709200000000 : Int) ≤ specLastDayOfPrevMonth marchNow) ∧
    matchesDate "all" 1709200000000 marchNow = true :=
  filterAndSortEmails_date_buckets 1709200000000 marchNow (by decide)

end EmailMCP
